import Mathlib

/-!
Verification of the TextSwipe content-generation pipeline: a shallow
embedding of `src/server/openai.ts` (`sanitizeAndValidateJson`,
`getFallbackContent`, `generateLearningSnippets`, the module-level
`snippetCache`) and of the `POST /api/generate` handler registered in
`src/server/routes.ts`.

Modelling conventions:
- JS strings are lists of characters (`Str`); JS runtime values are the
  inductive `JsVal` (with an explicit `undefined`).
- `JSON.parse` is modelled by `jsonParse`, a fuel-driven recursive-descent
  recogniser/decoder of the ECMA-404 grammar.  Surrogate-pair `\u` escapes
  decode to per-escape characters rather than combined code points; that
  corner never matters below.
- The in-memory `snippetCache` (a JS `Map`) is an association list where
  `mapSet` prepends, so the most recent binding for a key wins.
- `generateLearningSnippets` has a single suspension point that touches
  shared state (the `await fetch(...)`); the function is therefore split
  into two synchronous phases (`genPhase1` before the fetch, `genPhase2`
  after it) so that concurrent requests can be modelled as interleavings
  of phase steps.  The network and process environment are an explicit
  `Env`: whether `OPENROUTER_API_KEY` is set, and the outcome of the fetch
  (`FetchOutcome`).  The response-structure recovery chain of
  openai.ts:263-345 is abstracted into that outcome: `okContent (some c)`
  means a usable message content `c` was extracted (via the primary field
  or one of the alternative fields), `okContent none` means no recoverable
  content was found.  File logging (`logRequest`, debug logs) has no
  observable effect on results and is not modelled.
-/

namespace TextSwipe

/-- JS strings are modelled as lists of characters. -/
abbrev Str := List Char

/-- Turns a Lean string literal into the character-list model of a JS string. -/
def lit (s : String) : Str := s.data

/-- The apostrophe character (U+0027), spliced into template text that contains it. -/
def apos : Char := Char.ofNat 39

/-- A JavaScript runtime value, as far as the pipeline observes one:
`undefined`, `null`, booleans, numbers (kept as their JSON lexeme, since no
claim depends on numeric value beyond zero-ness), strings, arrays, and plain
objects (field list in source order). -/
inductive JsVal where
  | undefined
  | jnull
  | jbool (b : Bool)
  | jnum (lex : Str)
  | jstr (s : Str)
  | jarr (elems : List JsVal)
  | jobj (fields : List (Str × JsVal))

/-- JSON insignificant whitespace (the four characters JSON.parse skips). -/
def isJsonWs (c : Char) : Bool :=
  c == ' ' || c == '\t' || c == '\n' || c == '\r'

/-- Skip JSON whitespace. -/
def skipWs (s : Str) : Str := s.dropWhile isJsonWs

/-- Value of a hexadecimal digit, if any. -/
def hexVal (c : Char) : Option Nat :=
  if '0' ≤ c ∧ c ≤ '9' then some (c.toNat - 48)
  else if 'a' ≤ c ∧ c ≤ 'f' then some (c.toNat - 87)
  else if 'A' ≤ c ∧ c ≤ 'F' then some (c.toNat - 55)
  else none

/-- Body of a JSON string literal (opening quote already consumed), as
`JSON.parse` accepts it: the escapes are exactly
the two quotes/backslash/slash, `b f n r t`, and `\uXXXX`; raw control
characters below 0x20 are rejected.  Returns the decoded characters and the
rest of the input.  Fuel-driven; callers pass enough fuel to cover the input. -/
def pStr : Nat → Str → Option (Str × Str)
  | 0, _ => none
  | _, [] => none
  | fuel + 1, c :: r =>
    if c = '"' then some ([], r)
    else if c = '\\' then
      match r with
      | [] => none
      | e :: r2 =>
        if e = '"' then (pStr fuel r2).map (fun p => ('"' :: p.1, p.2))
        else if e = '\\' then (pStr fuel r2).map (fun p => ('\\' :: p.1, p.2))
        else if e = '/' then (pStr fuel r2).map (fun p => ('/' :: p.1, p.2))
        else if e = 'b' then (pStr fuel r2).map (fun p => ('\x08' :: p.1, p.2))
        else if e = 'f' then (pStr fuel r2).map (fun p => ('\x0c' :: p.1, p.2))
        else if e = 'n' then (pStr fuel r2).map (fun p => ('\n' :: p.1, p.2))
        else if e = 'r' then (pStr fuel r2).map (fun p => ('\r' :: p.1, p.2))
        else if e = 't' then (pStr fuel r2).map (fun p => ('\t' :: p.1, p.2))
        else if e = 'u' then
          match r2 with
          | h1 :: h2 :: h3 :: h4 :: r6 =>
            match hexVal h1, hexVal h2, hexVal h3, hexVal h4 with
            | some a, some b, some c3, some d =>
              (pStr fuel r6).map (fun p =>
                (Char.ofNat (((a * 16 + b) * 16 + c3) * 16 + d) :: p.1, p.2))
            | _, _, _, _ => none
          | _ => none
        else none
    else if c.toNat < 32 then none
    else (pStr fuel r).map (fun p => (c :: p.1, p.2))

/-- Optional JSON fraction part: `.` followed by one or more digits, or nothing. -/
def pFrac : Str → Option (Str × Str)
  | '.' :: r =>
    let ds := r.takeWhile Char.isDigit
    if ds = [] then none else some ('.' :: ds, r.drop ds.length)
  | s => some ([], s)

/-- Optional JSON exponent part: `e`/`E`, optional sign, one or more digits. -/
def pExp : Str → Option (Str × Str)
  | [] => some ([], [])
  | c :: r =>
    if c = 'e' ∨ c = 'E' then
      let sg : Str × Str :=
        match r with
        | '+' :: t => (['+'], t)
        | '-' :: t => (['-'], t)
        | _ => ([], r)
      let ds := sg.2.takeWhile Char.isDigit
      if ds = [] then none else some (c :: (sg.1 ++ ds), sg.2.drop ds.length)
    else some ([], c :: r)

/-- JSON number: `-? (0 | [1-9][0-9]*) frac? exp?`.  Returns the lexeme and
the rest of the input. -/
def pNum (s : Str) : Option (Str × Str) :=
  let sp : Str × Str :=
    match s with
    | '-' :: r => (['-'], r)
    | _ => ([], s)
  match sp.2 with
  | [] => none
  | c :: r =>
    let ip : Option (Str × Str) :=
      if c = '0' then some (['0'], r)
      else if c.isDigit then
        let ds := (c :: r).takeWhile Char.isDigit
        some (ds, (c :: r).drop ds.length)
      else none
    match ip with
    | none => none
    | some (ids, r1) =>
      match pFrac r1 with
      | none => none
      | some (fds, r2) =>
        match pExp r2 with
        | none => none
        | some (eds, r3) => some (sp.1 ++ ids ++ fds ++ eds, r3)

mutual

/-- JSON value (recursive descent, fuel decreases on every recursive call). -/
def pVal : Nat → Str → Option (JsVal × Str)
  | 0, _ => none
  | fuel + 1, s =>
    match skipWs s with
    | [] => none
    | c :: r =>
      if c = '{' then
        match skipWs r with
        | '}' :: r2 => some (.jobj [], r2)
        | r1 => pObjLoop fuel r1 []
      else if c = '[' then
        match skipWs r with
        | ']' :: r2 => some (.jarr [], r2)
        | r1 => pArrLoop fuel r1 []
      else if c = '"' then
        (pStr (r.length + 1) r).map (fun p => (.jstr p.1, p.2))
      else if c = 't' then
        match r with
        | 'r' :: 'u' :: 'e' :: r2 => some (.jbool true, r2)
        | _ => none
      else if c = 'f' then
        match r with
        | 'a' :: 'l' :: 's' :: 'e' :: r2 => some (.jbool false, r2)
        | _ => none
      else if c = 'n' then
        match r with
        | 'u' :: 'l' :: 'l' :: r2 => some (.jnull, r2)
        | _ => none
      else
        (pNum (c :: r)).map (fun p => (.jnum p.1, p.2))

/-- Elements of a JSON array after the opening bracket (nonempty case). -/
def pArrLoop : Nat → Str → List JsVal → Option (JsVal × Str)
  | 0, _, _ => none
  | fuel + 1, s, acc =>
    match pVal fuel s with
    | none => none
    | some (v, r) =>
      match skipWs r with
      | ',' :: r2 => pArrLoop fuel r2 (acc ++ [v])
      | ']' :: r2 => some (.jarr (acc ++ [v]), r2)
      | _ => none

/-- Members of a JSON object after the opening brace (nonempty case). -/
def pObjLoop : Nat → Str → List (Str × JsVal) → Option (JsVal × Str)
  | 0, _, _ => none
  | fuel + 1, s, acc =>
    match skipWs s with
    | '"' :: r =>
      match pStr (r.length + 1) r with
      | none => none
      | some (k, r2) =>
        match skipWs r2 with
        | ':' :: r3 =>
          match pVal fuel r3 with
          | none => none
          | some (v, r4) =>
            match skipWs r4 with
            | ',' :: r5 => pObjLoop fuel r5 (acc ++ [(k, v)])
            | '}' :: r5 => some (.jobj (acc ++ [(k, v)]), r5)
            | _ => none
        | _ => none
    | _ => none

end

/-- Model of `JSON.parse` as called at `src/server/openai.ts:66` and `:386`:
succeeds exactly on texts accepted by the ECMA-404 grammar (with trailing
whitespace allowed), returning the decoded value.  The fuel `2·|s| + 8`
strictly dominates the recursion depth, which consumes at least one input
character every two fuel levels. -/
def jsonParse (s : Str) : Option JsVal :=
  match pVal (2 * s.length + 8) s with
  | none => none
  | some (v, r) => if skipWs r = [] then some v else none

/-! ## The sanitizer (`sanitizeAndValidateJson`, openai.ts:33-79) -/

/-- The suffix of `s` starting at its first `{` (if any).  First half of the
greedy regex `/\{[\s\S]*\}/` used at openai.ts:36. -/
def dropBeforeBrace : Str → Option Str
  | [] => none
  | c :: r => if c = '{' then some (c :: r) else dropBeforeBrace r

/-- The span matched by `content.match(/\{[\s\S]*\}/)` (openai.ts:36):
from the first `{` of the input to the last `}` of the input, provided that
`}` comes after the `{` (the regex is greedy, so `[\s\S]*` stretches to the
last closing brace of the whole input, not to the first balanced one). -/
def extractSpan (content : Str) : Option Str :=
  match dropBeforeBrace content with
  | none => none
  | some t =>
    let u := (t.reverse.dropWhile (fun c => c != '}')).reverse
    if u = [] then none else some u

/-- One step of the brace-balance scan of openai.ts:45-57: state is
(count, inString, previous character).  The quote toggles `inString` unless
the previous character is a backslash; braces are counted only outside
strings, using the post-toggle `inString`, exactly as the source does. -/
def braceStep (st : Int × Bool × Option Char) (c : Char) : Int × Bool × Option Char :=
  let inString := if c = '"' ∧ st.2.2 ≠ some '\\' then !st.2.1 else st.2.1
  let cnt :=
    if ¬inString ∧ c = '{' then st.1 + 1
    else if ¬inString ∧ c = '}' then st.1 - 1
    else st.1
  (cnt, inString, some c)

/-- Final brace count of the scan of openai.ts:45-57 over a candidate span. -/
def jsBraceCount (s : Str) : Int :=
  (s.foldl braceStep (0, false, none)).1

/-- Model of `sanitizeAndValidateJson` (openai.ts:33-79): extract the greedy
`{...}` span, reject it if the quoted-string-aware brace count is nonzero,
reject it if `JSON.parse` fails on it, otherwise return the whole span.
`null` is `none`.  (The body is wrapped in a catch-all `try`, but no step
can throw, so the function is total exactly as written.) -/
def sanitizeAndValidateJson (content : Str) : Option Str :=
  match extractSpan content with
  | none => none
  | some span =>
    if jsBraceCount span ≠ 0 then none
    else if (jsonParse span).isSome then some span
    else none

/-! ## JS value semantics used by the pipeline -/

/-- JS truthiness of a value (`if (parsed.cards)`, `if (!topic)`, ...).
A number is falsy exactly when its lexeme denotes zero, i.e. every digit of
its mantissa (before any exponent marker) is `0`. -/
def jsTruthy : JsVal → Bool
  | .undefined => false
  | .jnull => false
  | .jbool b => b
  | .jnum lex =>
    !(lex.takeWhile (fun c => c != 'e' && c != 'E')).all
      (fun c => !c.isDigit || c == '0')
  | .jstr s => !s.isEmpty
  | .jarr _ => true
  | .jobj _ => true

/-- JS string coercion as performed by template literals and by
`RegExp.test`'s argument conversion.  Array/object cases are simplified
(`[object Object]` for objects, comma-joined recursion elided to empty for
arrays); no claim exercises them. -/
def jsTemplate : JsVal → Str
  | .undefined => lit "undefined"
  | .jnull => lit "null"
  | .jbool true => lit "true"
  | .jbool false => lit "false"
  | .jnum lex => lex
  | .jstr s => s
  | .jarr _ => []
  | .jobj _ => lit "[object Object]"

/-- JS `String.prototype.trim` whitespace (the characters relevant here). -/
def isJsWs (c : Char) : Bool :=
  c == ' ' || c == '\t' || c == '\n' || c == '\r' || c == '\x0b' || c == '\x0c'

/-- JS `topic.trim()`. -/
def jsTrim (s : Str) : Str :=
  ((s.dropWhile isJsWs).reverse.dropWhile isJsWs).reverse

/-- ASCII lower-casing, the part of JS `toLowerCase` the keyword tables need. -/
def lowerChar (c : Char) : Char :=
  if 'A' ≤ c ∧ c ≤ 'Z' then Char.ofNat (c.toNat + 32) else c

/-- JS `topic.toLowerCase()` (ASCII fragment). -/
def jsLower (s : Str) : Str := s.map lowerChar

/-- JS `haystack.includes(needle)`: substring containment. -/
def strIncludes (hay needle : Str) : Bool :=
  hay.tails.any (fun t => needle.isPrefixOf t)

/-- Last-binding-wins field lookup, matching `JSON.parse`'s handling of
duplicate keys and ordinary JS property access on the decoded object. -/
def lookupField (fs : List (Str × JsVal)) (k : Str) : Option JsVal :=
  (fs.reverse.find? (fun e => e.1 == k)).map (fun e => e.2)

/-- JS property read `v[k]` for the shapes the pipeline touches: a missing
field (or access on a primitive) is `undefined`; callers that would throw on
`null`/`undefined` handle that case themselves. -/
def jGet (v : JsVal) (k : Str) : Option JsVal :=
  match v with
  | .jobj fs => lookupField fs k
  | _ => none

/-! ## Fallback library (`getFallbackContent`, openai.ts:475-594) -/

/-- The result shape of `generateLearningSnippets` and of `getFallbackContent`
(`{ snippets, options? }`); both fields keep their dynamic JS type.  There is
no `continuationToken` field — the TS return type is
`{ snippets: string[]; options?: {...}[] }`. -/
structure GenResult where
  snippets : JsVal
  options : JsVal

/-- The ten fallback sentence templates of openai.ts:480-491, each splicing
the topic verbatim. -/
def fallbackSnippetsList (topic : Str) : List Str :=
  [ lit "Discover the fundamentals of " ++ topic ++
      (lit " and why it matters in today" ++ [apos] ++ lit "s world."),
    lit "Key insight: " ++ topic ++
      lit " becomes more powerful when you understand its core principles.",
    lit "Practical tip: Start applying " ++ topic ++
      lit " concepts in small, real-world scenarios.",
    lit "Remember: Mastering " ++ topic ++
      lit " requires consistent practice and curiosity.",
    lit "Expert advice: Focus on the fundamentals of " ++ topic ++
      lit " before diving into advanced concepts.",
    lit "Did you know? " ++ topic ++
      lit " has fascinating applications across various industries.",
    lit "Pro tip: Break down " ++ topic ++
      lit " into smaller, manageable learning modules.",
    lit "Interesting fact: " ++ topic ++
      lit " connects multiple disciplines in unexpected ways.",
    lit "Tip: Use " ++ topic ++ lit " to solve practical, everyday problems.",
    lit "Note: Understanding " ++ topic ++
      lit " can open doors to many opportunities." ]

/-- The keyword-matched option tables of openai.ts:495-587, selected on the
lower-cased topic, in source order (science/biology/neuroscience, then
physics/quantum, then ai/artificial/machine, generic last). -/
def fallbackOptionsTable (topic : Str) : List (Str × Str) :=
  let tl := jsLower topic
  if strIncludes tl (lit "science") || strIncludes tl (lit "biology") ||
      strIncludes tl (lit "neuroscience") then
    [ (lit "Biological Basis of " ++ topic,
       lit "Explore the fundamental biological mechanisms behind " ++ topic),
      (lit "Applications in Medicine",
       lit "Learn how " ++ topic ++ lit " is applied in medical research and treatments"),
      (lit "Cognitive Aspects",
       lit "Understand the cognitive and psychological dimensions of " ++ topic),
      (lit "Future Research",
       lit "Discover cutting-edge research and future directions in " ++ topic) ]
  else if strIncludes tl (lit "physics") || strIncludes tl (lit "quantum") then
    [ (lit "Fundamental Principles",
       lit "Dive deep into the core principles that govern " ++ topic),
      (lit "Practical Applications",
       lit "Explore real-world applications and technologies based on " ++ topic),
      (lit "Historical Development",
       lit "Trace the evolution of our understanding of " ++ topic),
      (lit "Current Research",
       lit "Learn about the latest discoveries and experiments in " ++ topic) ]
  else if strIncludes tl (lit "ai") || strIncludes tl (lit "artificial") ||
      strIncludes tl (lit "machine") then
    [ (lit "AI Fundamentals",
       lit "Understand the core concepts and algorithms behind " ++ topic),
      (lit "Ethical Considerations",
       lit "Explore the ethical implications and societal impact of " ++ topic),
      (lit "Real-World Applications",
       lit "See how " ++ topic ++ lit " is transforming industries and daily life"),
      (lit "Future of AI",
       lit "Discover emerging trends and future possibilities in " ++ topic) ]
  else
    [ (lit "History of " ++ topic,
       lit "Trace the historical development and key milestones of " ++ topic),
      (lit "Types of " ++ topic,
       lit "Explore the different variations and classifications of " ++ topic),
      (lit "Applications",
       lit "Learn about practical uses and real-world applications of " ++ topic),
      (lit "Future Trends",
       lit "Discover emerging trends and innovations in " ++ topic) ]

/-- An `{title, description}` option object. -/
def mkOpt (td : Str × Str) : JsVal :=
  .jobj [(lit "title", .jstr td.1), (lit "description", .jstr td.2)]

/-- Model of `getFallbackContent(topic, count, generateOptions)` (openai.ts:475-594):
the first `count` fallback sentences; options are the keyword-selected table
when requested and `undefined` otherwise.  It receives no cursor or page. -/
def getFallbackContent (topic : Str) (count : Nat) (generateOptions : Bool) : GenResult :=
  { snippets := .jarr (((fallbackSnippetsList topic).take count).map .jstr),
    options :=
      if generateOptions then .jarr ((fallbackOptionsTable topic).map mkOpt)
      else .undefined }

/-! ## Decoding the parsed upstream object (openai.ts:401-414) -/

/-- Evaluation of `card.text` inside `parsed.cards.map((card) => card.text)`: property
access on `null`/`undefined` throws (`error ()`), an object yields its
`text` field or `undefined`, any other value yields `undefined`. -/
def cardText (c : JsVal) : Except Unit JsVal :=
  match c with
  | .jnull => .error ()
  | .undefined => .error ()
  | .jobj fs => .ok ((lookupField fs (lit "text")).getD .undefined)
  | _ => .ok .undefined

/-- Model of `cards.map((card) => card.text)` over the element list. -/
def mapTexts : List JsVal → Except Unit (List JsVal)
  | [] => .ok []
  | c :: rest =>
    match cardText c with
    | .error e => .error e
    | .ok t =>
      match mapTexts rest with
      | .error e => .error e
      | .ok ts => .ok (t :: ts)

/-- Model of `v.slice(0, n)`: arrays and strings support it, anything else throws. -/
def jsSliceTake (v : JsVal) (n : Nat) : Except Unit JsVal :=
  match v with
  | .jarr xs => .ok (.jarr (xs.take n))
  | .jstr s => .ok (.jstr (s.take n))
  | _ => .error ()

/-- The shape handling of openai.ts:401-414 on the decoded object: a truthy
`cards` field is mapped to its `text`s and sliced to `count` (with `options`
sliced to 4 when truthy); otherwise a truthy legacy `snippets` field is
sliced to `count`; otherwise the code throws
(`"Invalid response format: missing cards/snippets"`).  Any `error` here is
caught by the inner catch of openai.ts:415. -/
def decodeShapes (parsed : JsVal) (count : Nat) : Except Unit (JsVal × JsVal) :=
  let cardsF := (jGet parsed (lit "cards")).getD .undefined
  if jsTruthy cardsF then
    match cardsF with
    | .jarr xs =>
      match mapTexts xs with
      | .error e => .error e
      | .ok texts =>
        let snips := JsVal.jarr (texts.take count)
        let optsF := (jGet parsed (lit "options")).getD .undefined
        if jsTruthy optsF then
          match jsSliceTake optsF 4 with
          | .error e => .error e
          | .ok o => .ok (snips, o)
        else .ok (snips, .jarr [])
    | _ => .error ()
  else
    let snF := (jGet parsed (lit "snippets")).getD .undefined
    if jsTruthy snF then
      match jsSliceTake snF count with
      | .error e => .error e
      | .ok s => .ok (s, .jarr [])
    else .error ()

/-! ## `generateLearningSnippets` (openai.ts:112-470) -/

/-- The environment one call runs against: whether `OPENROUTER_API_KEY` is
set, the outcome of the single upstream `fetch`, and the wall clock
(`Date.now()`, read by the route handler's rewrite). -/
inductive FetchOutcome where
  | httpErr (status : Nat)
  | okContent (content : Option Str)

structure Env where
  apiKeyPresent : Bool
  fetchOutcome : FetchOutcome
  now : Nat

/-- The module-level `snippetCache` (openai.ts:16-19): a `Map` from the key
string to the stored result, modelled as an association list where the most
recent `set` wins. -/
abbrev CacheMap := List (Str × GenResult)

def mapGet (m : CacheMap) (k : Str) : Option GenResult :=
  (m.find? (fun e => e.1 == k)).map (fun e => e.2)

def mapSet (m : CacheMap) (k : Str) (v : GenResult) : CacheMap :=
  (k, v) :: m

/-- JS default-parameter resolution for `generateOptions: boolean = false`:
passing `undefined` (which the `/api/generate` route does whenever the
request has no `previousSnippet`) selects the default `false`. -/
def resolveGenOpts (v : JsVal) : JsVal :=
  match v with
  | .undefined => .jbool false
  | x => x

/-- The cache key `` `${topic}:${count}:${generateOptions}` `` of
openai.ts:122, built from the resolved third argument. -/
def mkKey (topic : Str) (count : Nat) (genOpts : JsVal) : Str :=
  topic ++ [':'] ++ lit (Nat.repr count) ++ [':'] ++ jsTemplate genOpts

/-- The test `!fallbackResult.options || fallbackResult.options.length === 0` from the
outer catch (openai.ts:445-447). -/
def optsMissing (o : JsVal) : Bool :=
  if !jsTruthy o then true
  else
    match o with
    | .jarr xs => xs.isEmpty
    | .jstr s => s.isEmpty
    | _ => false

/-- The four patch options built inside the outer catch (openai.ts:449-466). -/
def patchOptionsList (topic : Str) : List (Str × Str) :=
  [ (lit "Introduction to " ++ topic, lit "Learn the basics of " ++ topic),
    (lit "Advanced " ++ topic, lit "Explore advanced concepts in " ++ topic),
    (lit "Applications of " ++ topic,
     lit "Discover practical applications of " ++ topic),
    (topic ++ lit " Research", lit "Explore current research in " ++ topic) ]

/-- The outer catch handler (openai.ts:432-469): fall back, and when options
were requested but the fallback carries none, patch in the generic four. -/
def outerCatch (topic : Str) (count : Nat) (go : Bool) : GenResult :=
  let fb := getFallbackContent topic count go
  if go && optsMissing fb.options then
    { fb with options := .jarr ((patchOptionsList topic).map mkOpt) }
  else fb

/-- The inner catch handler (openai.ts:415-426): replace `snippets` with
fallback ones; when options were requested take the fallback's
(`fallbackContent.options || []`), otherwise keep the `[]` the variable was
initialised with at openai.ts:352.  Control then falls through to the cache
write at openai.ts:429. -/
def innerCatch (topic : Str) (count : Nat) (go : Bool) : JsVal × JsVal :=
  let fb := getFallbackContent topic count go
  ( fb.snippets,
    if go then
      match fb.options with
      | .undefined => .jarr []
      | o => o
    else .jarr [] )

/-- What `generateLearningSnippets` still has to do after its `await fetch`
suspension point: the data carried across it. -/
structure PendingFetch where
  key : Str
  topic : Str
  count : Nat
  go : Bool

/-- The synchronous prefix of `generateLearningSnippets` (openai.ts:120-183),
up to the `await fetch`: resolve the default third argument, check the
cache (openai.ts:122-126), check the API key (openai.ts:128-132, fallback
*without caching*), then the topic validation throw of openai.ts:134-136
(swallowed by the outer catch).  `inl` is an immediate result (no upstream
call, no cache write); `inr` proceeds to the fetch. -/
def genPhase1 (cache : CacheMap) (apiKey : Bool) (topic : Str) (count : Nat)
    (genOptsArg : JsVal) : Sum GenResult PendingFetch :=
  match mapGet cache (mkKey topic count (resolveGenOpts genOptsArg)) with
  | some r => .inl r
  | none =>
    if !apiKey then
      .inl (getFallbackContent topic count (jsTruthy (resolveGenOpts genOptsArg)))
    else if topic.isEmpty || (jsTrim topic).isEmpty then
      .inl (outerCatch topic count (jsTruthy (resolveGenOpts genOptsArg)))
    else
      .inr (PendingFetch.mk (mkKey topic count (resolveGenOpts genOptsArg)) topic count
        (jsTruthy (resolveGenOpts genOptsArg)))

/-- The rest of `generateLearningSnippets` after the fetch resolves
(openai.ts:212-431): a 429 returns plain fallback (openai.ts:233, no cache
write); any other non-ok status throws (openai.ts:236) into the outer catch;
a 200 without recoverable content returns plain fallback (openai.ts:343);
otherwise the content is sanitized (a `null` span returns fallback uncached,
openai.ts:374/381), parsed and shape-decoded — a throw in that stretch is
caught by the inner catch — and the final `{snippets, options}` is written
to the cache (openai.ts:429) and returned. -/
def genPhase2 (cache : CacheMap) (p : PendingFetch) (outcome : FetchOutcome) :
    CacheMap × GenResult :=
  match outcome with
  | .httpErr status =>
    if status = 429 then (cache, getFallbackContent p.topic p.count p.go)
    else (cache, outerCatch p.topic p.count p.go)
  | .okContent none => (cache, getFallbackContent p.topic p.count p.go)
  | .okContent (some content) =>
    match sanitizeAndValidateJson content with
    | none => (cache, getFallbackContent p.topic p.count p.go)
    | some span =>
      if span.isEmpty then (cache, getFallbackContent p.topic p.count p.go)
      else
        let sr : JsVal × JsVal :=
          match jsonParse span with
          | none => innerCatch p.topic p.count p.go
          | some parsed =>
            match decodeShapes parsed p.count with
            | .ok v => v
            | .error _ => innerCatch p.topic p.count p.go
        let r : GenResult := { snippets := sr.1, options := sr.2 }
        (mapSet cache p.key r, r)

/-- Aggregate outcome of one whole call: the cache afterwards, the returned
value, and whether the upstream provider was invoked. -/
structure GenOut where
  cache : CacheMap
  result : GenResult
  called : Bool

/-- Model of `generateLearningSnippets(topic, count = 10, generateOptions = false)`
run to completion against `env` (the two phases back to back).  The function
never rejects: every internal throw lands in the outer catch. -/
def generateLearningSnippets (cache : CacheMap) (env : Env) (topic : Str)
    (count : Nat) (genOptsArg : JsVal) : GenOut :=
  match genPhase1 cache env.apiKeyPresent topic count genOptsArg with
  | .inl r => { cache := cache, result := r, called := false }
  | .inr p =>
    let cr := genPhase2 cache p env.fetchOutcome
    { cache := cr.1, result := cr.2, called := true }

/-! ## The `POST /api/generate` handler (routes.ts:19-68) -/

/-- The `.` of the JS regex (no `s` flag): any character except a line
terminator. -/
def regexDot (c : Char) : Bool :=
  c != '\n' && c != '\r' && c != ' ' && c != ' '

/-- Case-insensitive literal prefix match (the regex has the `i` flag). -/
def ciPrefixOf (pat s : Str) : Bool :=
  (jsLower pat).isPrefixOf (jsLower s)

/-- All ways to split a list into a prefix and the matching suffix. -/
def splitsOf (s : Str) : List (Str × Str) :=
  (List.range (s.length + 1)).map (fun i => (s.take i, s.drop i))

/-- Whether `/additional insights about .* - point \d+/i` matches starting
exactly at the head of `t`: the first literal, then a `.*` stretch free of
line terminators, then the second literal, then at least one digit. -/
def testPatAt (t : Str) : Bool :=
  ciPrefixOf (lit "additional insights about ") t &&
    (splitsOf (t.drop (lit "additional insights about ").length)).any
      (fun pr =>
        pr.1.all regexDot && ciPrefixOf (lit " - point ") pr.2 &&
          (match pr.2.drop (lit " - point ").length with
           | c :: _ => c.isDigit
           | [] => false))

/-- The test `/additional insights about .* - point \d+/i.test(content)` from
routes.ts:43: an unanchored search over the coerced string. -/
def testPat (s : Str) : Bool :=
  s.tails.any testPatAt

/-- Digit characters of `Number.prototype.toString(36)`. -/
def b36digit (n : Nat) : Char :=
  if n < 10 then Char.ofNat (48 + n) else Char.ofNat (87 + n)

def toBase36Aux : Nat → Nat → Str
  | 0, _ => []
  | f + 1, n => if n = 0 then [] else toBase36Aux f (n / 36) ++ [b36digit (n % 36)]

/-- Model of `n.toString(36)` for a natural number. -/
def toBase36 (n : Nat) : Str :=
  if n = 0 then ['0'] else toBase36Aux (n + 1) n

/-- The replacement string built at routes.ts:44-48 when the repetitive
pattern is detected: `Unique insight ${uniqueId}: ${topic} has ${adj} aspects
worth exploring`, with `uniqueId = (Date.now() + page*1000).toString(36)
.substring(0,6)` and the adjective indexed by `page % 5`. -/
def rewriteStr (now page : Nat) (topic : Str) : Str :=
  let uniqueId := (toBase36 (now + page * 1000)).take 6
  let adj := [lit "fundamental", lit "advanced", lit "practical",
              lit "theoretical", lit "applied"].getD (page % 5) []
  lit "Unique insight " ++ uniqueId ++ lit ": " ++ topic ++ lit " has " ++
    adj ++ lit " aspects worth exploring"

/-- The request body fields the handler destructures
(`const { topic, previousSnippet, page = 0 } = req.body`); `page` is kept as
a natural page counter. -/
structure ApiReq where
  topic : JsVal
  previousSnippet : JsVal
  page : Nat

/-- The three response shapes of the handler: the 200 JSON body
(`{cards, nextPrevious, page, options}`, each card `{content}`), the 400
topic rejection, and the 500 catch. -/
inductive ApiResp where
  | ok (cards : List JsVal) (nextPrevious : JsVal) (page : Nat) (options : JsVal)
  | badRequest
  | serverError

/-- The `POST /api/generate` handler of routes.ts:19-68.  Faithful to the
source including its bug: the call at routes.ts:32-39 passes SIX arguments
`(topic, 10, previousSnippet, userId, page, true)` to a function whose
parameters are `(topic, count, generateOptions)`, so `previousSnippet` lands
in `generateOptions` and `userId`/`page`/`true` are discarded by JS.
`result.continuationToken` does not exist on the result, so `nextPrevious`
is the literal `undefined`.  `result.snippets.map` throws into the 500 catch
when `snippets` is not an array.  Returns the new cache, the response, and
whether the upstream provider was called. -/
def apiGenerateHandler (cache : CacheMap) (env : Env) (req : ApiReq) :
    CacheMap × ApiResp × Bool :=
  match req.topic with
  | .jstr t =>
    if t.isEmpty then (cache, .badRequest, false)
    else
      match (generateLearningSnippets cache env t 10 req.previousSnippet).result.snippets with
      | .jarr xs =>
        ((generateLearningSnippets cache env t 10 req.previousSnippet).cache,
         .ok ((xs.map (fun content =>
             if testPat (jsTemplate content) then
               .jstr (rewriteStr env.now req.page t)
             else content)).map (fun content => JsVal.jobj [(lit "content", content)]))
           .undefined (req.page + 1)
           (generateLearningSnippets cache env t 10 req.previousSnippet).result.options,
         (generateLearningSnippets cache env t 10 req.previousSnippet).called)
      | _ =>
        ((generateLearningSnippets cache env t 10 req.previousSnippet).cache,
         .serverError,
         (generateLearningSnippets cache env t 10 req.previousSnippet).called)
  | _ => (cache, .badRequest, false)

/-- The card list of a 200 response (empty for error responses). -/
def respCards : ApiResp → List JsVal
  | .ok cards _ _ _ => cards
  | _ => []

/-- The proposition that a response, when it is a 200, carries
`nextPrevious = undefined`. -/
def nextPrevUndef : ApiResp → Prop
  | .ok _ np _ _ => np = .undefined
  | _ => True

/-- Whether a response is a 200. -/
def isOkResp : ApiResp → Bool
  | .ok _ _ _ _ => true
  | _ => false

/-! ## Interleaving model for concurrent calls

Node runs request handlers single-threaded but interleaves them at `await`
points; `generateLearningSnippets` touches the shared `snippetCache` in two
synchronous stretches separated by the `await fetch`.  A thread therefore
advances in two steps (`genPhase1`, then `genPhase2`), and a schedule is the
list of thread indices in the order their next step runs. -/

inductive ThPhase where
  | ready
  | pending (p : PendingFetch)
  | finished (r : GenResult) (called : Bool)

/-- A request thread: the arguments of its `generateLearningSnippets` call
and the environment its fetch resolves against. -/
structure ThreadSpec where
  topic : Str
  count : Nat
  genOpts : JsVal
  env : Env

/-- Shared state plus per-thread phases, with a count of upstream calls. -/
structure SysState where
  cache : CacheMap
  calls : Nat
  ph : List ThPhase

/-- Advance one thread by one synchronous stretch. -/
def stepThread (spec : ThreadSpec) (cache : CacheMap) (calls : Nat) :
    ThPhase → CacheMap × Nat × ThPhase
  | .ready =>
    match genPhase1 cache spec.env.apiKeyPresent spec.topic spec.count spec.genOpts with
    | .inl r => (cache, calls, .finished r false)
    | .inr p => (cache, calls + 1, .pending p)
  | .pending p =>
    let cr := genPhase2 cache p spec.env.fetchOutcome
    (cr.1, calls, .finished cr.2 true)
  | .finished r c => (cache, calls, .finished r c)

/-- Run a schedule (indices of the threads to step, in order). -/
def runSched (specs : List ThreadSpec) : List Nat → SysState → SysState
  | [], st => st
  | i :: rest, st =>
    match specs[i]?, st.ph[i]? with
    | some spec, some phase =>
      let r := stepThread spec st.cache st.calls phase
      runSched specs rest { cache := r.1, calls := r.2.1, ph := st.ph.set i r.2.2 }
    | _, _ => runSched specs rest st

/-! ## Spec-modelled first-balanced-region scanner (for claim C7 only)

The spec says the sanitizer "locates the first balanced `{...}` region".
The code does not; to compare, the region the spec describes is defined
here, from the spec's words. -/

/-- Scan forward accumulating characters, tracking brace depth with the same
quoted-string rule as the sanitizer, stopping as soon as depth returns
to zero. -/
def sfbScan (depth : Int) (inStr : Bool) (prev : Option Char) (acc : Str) :
    Str → Option Str
  | [] => none
  | c :: r =>
    let st2 := braceStep (depth, inStr, prev) c
    let acc2 := acc ++ [c]
    if st2.1 = 0 ∧ ¬st2.2.1 then some acc2
    else sfbScan st2.1 st2.2.1 st2.2.2 acc2 r

/-- Modelled from the spec: "Locates the first balanced `{...}` region in
`raw` ...; brace-balance must account for quoted strings so braces inside
string literals are ignored" (spec §4.2).  The code under test has no such
function — this definition exists only to witness, for claim C7, that the
code's behaviour differs from it. -/
def specFirstBalanced (s : Str) : Option Str :=
  match dropBeforeBrace s with
  | none => none
  | some t => sfbScan 0 false none [] t

/-! ## Decoded-object shape builders (used to state the claim about
openai.ts:401-414 over well-formed decoded objects) -/

/-- A decoded object of the modern shape `{cards: [{text: ...}], options?: [...]}`. -/
def cardsShape (texts : List Str) (opts : Option (List JsVal)) : JsVal :=
  .jobj ([(lit "cards", .jarr (texts.map (fun t => .jobj [(lit "text", .jstr t)])))] ++
    (match opts with
     | some os => [(lit "options", .jarr os)]
     | none => []))

/-- A decoded object of the legacy shape `{snippets: [string]}`. -/
def snippetsShape (ss : List Str) : JsVal :=
  .jobj [(lit "snippets", .jarr (ss.map .jstr))]

/-! ## Concrete instances used in closed theorems -/

/-- An upstream reply whose message content is the strict JSON
`{"cards":[{"text":"A"}]}`. -/
def goodCardsJson : Str := lit "\x7b\"cards\":[\x7b\"text\":\"A\"\x7d]\x7d"

/-- A different upstream reply, `{"cards":[{"text":"B"}]}`. -/
def otherCardsJson : Str := lit "\x7b\"cards\":[\x7b\"text\":\"B\"\x7d]\x7d"

/-- API key present, upstream returns `goodCardsJson`, clock at 0. -/
def envFirst : Env :=
  { apiKeyPresent := true, fetchOutcome := .okContent (some goodCardsJson), now := 0 }

/-- API key present, upstream would return `otherCardsJson`, clock ten days
(864000000 ms) later — far beyond any "about one hour" TTL. -/
def envTenDaysLater : Env :=
  { apiKeyPresent := true, fetchOutcome := .okContent (some otherCardsJson),
    now := 864000000 }

/-- Environment with `OPENROUTER_API_KEY` unset. -/
def envNoKey : Env :=
  { apiKeyPresent := false, fetchOutcome := .okContent none, now := 0 }

/-- A request body `{topic: "X", page}` with no `previousSnippet`. -/
def reqTopicX (page : Nat) : ApiReq :=
  { topic := .jstr (lit "X"), previousSnippet := .undefined, page := page }

/-- One of two identical concurrent generation requests. -/
def specAI : ThreadSpec :=
  { topic := lit "AI Ethics", count := 10, genOpts := .jbool true, env := envFirst }

/-- A warm cache of the kind the client's infinite-scroll flow produces for
topic `"X"`: one stored batch under the key built from
`previousSnippet = undefined` (key `"X:10:false"`, since the absent argument
resolves to the default `generateOptions = false`) and a different batch
under the key built from `previousSnippet = "prev"` (key `"X:10:prev"`,
since the string is spliced into the key through the `generateOptions`
slot). -/
def warmCache : CacheMap :=
  [ (mkKey (lit "X") 10 (JsVal.jbool false),
     { snippets := .jarr [.jstr (lit "A")], options := .jarr [] }),
    (mkKey (lit "X") 10 (JsVal.jstr (lit "prev")),
     { snippets := .jarr [.jstr (lit "B")], options := .jarr [] }) ]

/-! ## Helper lemmas -/

theorem isEmpty_false_of_trim_ne (topic : Str) (h : jsTrim topic ≠ []) :
    topic.isEmpty = false := by
  cases topic with
  | nil => exact absurd rfl h
  | cons a l => rfl

theorem extractSpan_ne_nil (content u : Str) (h : extractSpan content = some u) :
    u.isEmpty = false := by
  unfold extractSpan at h
  rcases hd : dropBeforeBrace content with _ | t <;> rw [hd] at h
  · exact absurd h (by simp)
  · dsimp only at h
    split at h
    · exact absurd h (by simp)
    · next hne =>
      injection h with h2
      cases u with
      | nil => exact absurd h2 hne
      | cons a l => rfl

theorem sanitize_eq_some_iff (content span : Str) :
    sanitizeAndValidateJson content = some span ↔
      (extractSpan content = some span ∧ jsBraceCount span = 0 ∧
        (jsonParse span).isSome = true) := by
  unfold sanitizeAndValidateJson
  rcases hd : extractSpan content with _ | s0 <;> dsimp only
  · simp
  · constructor
    · intro he
      split at he
      · exact absurd he (by simp)
      · next hb =>
        split at he
        · next hj =>
          injection he with h2
          subst h2
          exact ⟨rfl, not_not.mp hb, hj⟩
        · exact absurd he (by simp)
    · rintro ⟨h1, h2, h3⟩
      injection h1 with h1
      subst h1
      rw [if_neg (by rw [h2]; exact fun hc => hc rfl), if_pos h3]

theorem sanitize_some_nonempty (content u : Str)
    (h : sanitizeAndValidateJson content = some u) : u.isEmpty = false :=
  extractSpan_ne_nil content u ((sanitize_eq_some_iff content u).mp h).1

theorem mapGet_mapSet_self (m : CacheMap) (k : Str) (v : GenResult) :
    mapGet (mapSet m k v) k = some v := by
  unfold mapGet mapSet
  rw [List.find?_cons_of_pos _ (by simp)]
  rfl

theorem getFallbackContent_snippets (t : Str) (c : Nat) (g : Bool) :
    (getFallbackContent t c g).snippets =
      .jarr (((fallbackSnippetsList t).take c).map .jstr) := rfl

theorem outerCatch_snippets (t : Str) (c : Nat) (g : Bool) :
    (outerCatch t c g).snippets = (getFallbackContent t c g).snippets := by
  unfold outerCatch
  dsimp only
  split <;> rfl

theorem fallbackOptionsTable_ne_nil (t : Str) :
    (fallbackOptionsTable t).isEmpty = false := by
  unfold fallbackOptionsTable
  dsimp only
  split
  · rfl
  · split
    · rfl
    · split <;> rfl

theorem outerCatch_eq_fallback (t : Str) (c : Nat) (g : Bool) :
    outerCatch t c g = getFallbackContent t c g := by
  unfold outerCatch
  cases g with
  | false => rfl
  | true =>
    have hmiss : optsMissing (getFallbackContent t c true).options = false := by
      show optsMissing (.jarr ((fallbackOptionsTable t).map mkOpt)) = false
      unfold optsMissing
      rw [if_neg (by simp [jsTruthy])]
      have := fallbackOptionsTable_ne_nil t
      cases hl : fallbackOptionsTable t with
      | nil => rw [hl] at this; exact absurd this (by simp)
      | cons a l => simp
    simp [hmiss]

theorem dropBeforeBrace_append (p t : Str) (hp : ∀ c ∈ p, c ≠ '{') :
    dropBeforeBrace (p ++ t) = dropBeforeBrace t := by
  induction p with
  | nil => rfl
  | cons c r ih =>
    have hc : ¬(c = '{') := hp c (List.mem_cons_self c r)
    simpa [dropBeforeBrace, hc] using ih (fun x hx => hp x (List.mem_cons_of_mem c hx))

theorem dropWhile_append_all {α : Type} (f : α → Bool) (a b : List α)
    (h : ∀ x ∈ a, f x = true) :
    (a ++ b).dropWhile f = b.dropWhile f := by
  induction a with
  | nil => rfl
  | cons x r ih =>
    rw [List.cons_append, List.dropWhile_cons_of_pos (h x (List.mem_cons_self x r))]
    exact ih (fun y hy => h y (List.mem_cons_of_mem x hy))

theorem extractSpan_wrapped (p j s : Str)
    (hp : ∀ c ∈ p, c ≠ '{') (hs : ∀ c ∈ s, c ≠ '}')
    (hj0 : j.head? = some '{') (hj1 : j.getLast? = some '}') :
    extractSpan (p ++ j ++ s) = some j := by
  have hj_ne : j ≠ [] := by
    intro h
    rw [h] at hj0
    exact absurd hj0 (by simp)
  have h1 : dropBeforeBrace (p ++ j ++ s) = some (j ++ s) := by
    rw [List.append_assoc, dropBeforeBrace_append p (j ++ s) hp]
    cases j with
    | nil => exact absurd rfl hj_ne
    | cons a r =>
      have ha : a = '{' := by
        have := hj0
        simp [List.head?] at this
        exact this
      simp [dropBeforeBrace, ha]
  have h2 : ((j ++ s).reverse.dropWhile (fun c => c != '}')).reverse = j := by
    rw [List.reverse_append]
    rw [dropWhile_append_all _ s.reverse _ (fun x hx => by
      have hxs := hs x (List.mem_reverse.mp hx)
      simp [hxs])]
    have hrh : j.reverse.head? = some '}' := by
      rw [List.head?_reverse]
      exact hj1
    cases hrev : j.reverse with
    | nil => rw [hrev] at hrh; exact absurd hrh (by simp)
    | cons a r =>
      rw [hrev] at hrh
      simp [List.head?] at hrh
      subst hrh
      rw [List.dropWhile_cons_of_neg (by simp)]
      rw [← hrev, List.reverse_reverse]
  unfold extractSpan
  rw [h1]
  dsimp only
  rw [h2, if_neg hj_ne]

theorem genPhase2_snippets_indep (c1 c2 : CacheMap) (k1 k2 : Str) (t : Str)
    (n : Nat) (g1 g2 : Bool) (o : FetchOutcome) :
    (genPhase2 c1 { key := k1, topic := t, count := n, go := g1 } o).2.snippets =
    (genPhase2 c2 { key := k2, topic := t, count := n, go := g2 } o).2.snippets := by
  unfold genPhase2
  cases o with
  | httpErr status =>
    by_cases h4 : status = 429
    · subst h4
      rfl
    · dsimp only
      rw [if_neg h4, if_neg h4]
      rw [outerCatch_snippets, outerCatch_snippets]
      rfl
  | okContent content =>
    cases content with
    | none => rfl
    | some c =>
      dsimp only
      cases sanitizeAndValidateJson c with
      | none => rfl
      | some span =>
        dsimp only
        by_cases hsp : span.isEmpty
        · rw [if_pos hsp, if_pos hsp]
          rfl
        · rw [if_neg hsp, if_neg hsp]
          dsimp only
          cases jsonParse span with
          | none => rfl
          | some parsed =>
            dsimp only
            cases decodeShapes parsed n with
            | ok v => rfl
            | error e => rfl

theorem mapTexts_of_cards (texts : List Str) :
    mapTexts (texts.map (fun t => JsVal.jobj [(lit "text", JsVal.jstr t)])) =
      .ok (texts.map .jstr) := by
  induction texts with
  | nil => rfl
  | cons t ts ih =>
    have hstep : mapTexts ((t :: ts).map (fun x => JsVal.jobj [(lit "text", JsVal.jstr x)])) =
        (match mapTexts (ts.map (fun x => JsVal.jobj [(lit "text", JsVal.jstr x)])) with
         | .error e => (.error e : Except Unit (List JsVal))
         | .ok rest => .ok (JsVal.jstr t :: rest)) := rfl
    rw [hstep, ih]
    rfl

theorem genPhase1_empty_cache (apiKey : Bool) (topic : Str) (count : Nat) (v : JsVal) :
    genPhase1 [] apiKey topic count v =
      (if !apiKey then
        .inl (getFallbackContent topic count (jsTruthy (resolveGenOpts v)))
      else if topic.isEmpty || (jsTrim topic).isEmpty then
        .inl (outerCatch topic count (jsTruthy (resolveGenOpts v)))
      else
        .inr { key := mkKey topic count (resolveGenOpts v), topic := topic,
               count := count, go := jsTruthy (resolveGenOpts v) }) := rfl

theorem gen_snippets_indep (env : Env) (topic : Str) (count : Nat) (a b : JsVal) :
    (generateLearningSnippets [] env topic count a).result.snippets =
    (generateLearningSnippets [] env topic count b).result.snippets := by
  unfold generateLearningSnippets
  rw [genPhase1_empty_cache, genPhase1_empty_cache]
  cases hk : env.apiKeyPresent with
  | false => rfl
  | true =>
    rw [if_neg (show ¬((!true) = true) by decide),
      if_neg (show ¬((!true) = true) by decide)]
    by_cases hemp : (topic.isEmpty || (jsTrim topic).isEmpty) = true
    · rw [if_pos hemp, if_pos hemp]
      show (outerCatch topic count (jsTruthy (resolveGenOpts a))).snippets =
        (outerCatch topic count (jsTruthy (resolveGenOpts b))).snippets
      rw [outerCatch_snippets, outerCatch_snippets]
      rfl
    · rw [if_neg hemp, if_neg hemp]
      show (genPhase2 [] (PendingFetch.mk (mkKey topic count (resolveGenOpts a))
            topic count (jsTruthy (resolveGenOpts a))) env.fetchOutcome).2.snippets =
        (genPhase2 [] (PendingFetch.mk (mkKey topic count (resolveGenOpts b))
            topic count (jsTruthy (resolveGenOpts b))) env.fetchOutcome).2.snippets
      exact genPhase2_snippets_indep [] [] _ _ topic count _ _ env.fetchOutcome

/-! ## Claim theorems -/

/-- C4: for every topic string and every count between 1 and 10, the
Fallback Library is deterministic (two calls with the same arguments return
identical results), returns exactly `count` snippet strings, and each
snippet contains the topic text verbatim. -/
theorem c4_fallback_deterministic_count_topic_verbatim (topic : Str)
    (count : Nat) (go : Bool) (_hpos : 1 ≤ count) (h2 : count ≤ 10) :
    getFallbackContent topic count go = getFallbackContent topic count go ∧
    (getFallbackContent topic count go).snippets =
      .jarr (((fallbackSnippetsList topic).take count).map .jstr) ∧
    ((fallbackSnippetsList topic).take count).length = count ∧
    ∀ s ∈ (fallbackSnippetsList topic).take count, ∃ l r, s = l ++ topic ++ r := by
  refine ⟨rfl, rfl, ?_, ?_⟩
  · rw [List.length_take]
    have hlen : (fallbackSnippetsList topic).length = 10 := by
      simp [fallbackSnippetsList]
    rw [hlen]
    exact Nat.min_eq_left h2
  · intro s hs
    have hs2 := List.take_subset count (fallbackSnippetsList topic) hs
    simp only [fallbackSnippetsList, List.mem_cons, List.not_mem_nil, or_false] at hs2
    rcases hs2 with h | h | h | h | h | h | h | h | h | h <;> subst h <;>
      exact ⟨_, _, rfl⟩

/-- C4 witness: the theorem applied at topic `"Lean"`, count 3. -/
theorem c4_fallback_deterministic_count_topic_verbatim_witness :
    (1 ≤ 3 ∧ 3 ≤ 10) ∧ ((fallbackSnippetsList (lit "Lean")).take 3).length = 3 :=
  ⟨⟨by decide, by decide⟩,
   (c4_fallback_deterministic_count_topic_verbatim (lit "Lean") 3 false
     (by decide) (by decide)).2.2.1⟩

/-- C5: for every input string, the sanitizer either rejects (`null`) or
returns precisely the whole extracted span, and it returns that span exactly
when the span's quoted-string-aware brace count is zero and the span parses
as JSON; in particular unbalanced or invalid spans are rejected and no
partial output is ever produced.  The function is total (never throws) by
construction. -/
theorem c5_sanitizer_total_all_or_nothing (content span : Str) :
    sanitizeAndValidateJson content = some span ↔
      (extractSpan content = some span ∧ jsBraceCount span = 0 ∧
        (jsonParse span).isSome = true) :=
  sanitize_eq_some_iff content span

/-- C5 witness: prose followed by a JSON object is accepted whole. -/
theorem c5_sanitizer_total_all_or_nothing_witness :
    sanitizeAndValidateJson (lit "note \x7b\"a\": 1\x7d") = some (lit "\x7b\"a\": 1\x7d") :=
  (c5_sanitizer_total_all_or_nothing (lit "note \x7b\"a\": 1\x7d")
      (lit "\x7b\"a\": 1\x7d")).mpr ⟨by decide, by decide, by decide⟩

/-- C6: on well-formed decoded objects the parser accepts both the
`{cards: [{text}]}` shape and the legacy `{snippets: [string]}` shape,
normalizes either to a flat list of strings truncated to the requested
count, truncates `options` (when present) to at most 4 entries, and treats
absent `options` as an empty list rather than an error. -/
theorem c6_parser_accepts_both_shapes (texts ss : List Str)
    (opts : Option (List JsVal)) (count : Nat) :
    decodeShapes (cardsShape texts opts) count =
      .ok (.jarr ((texts.map JsVal.jstr).take count),
           .jarr ((opts.getD []).take 4)) ∧
    decodeShapes (snippetsShape ss) count =
      .ok (.jarr ((ss.map JsVal.jstr).take count), .jarr []) ∧
    ((opts.getD []).take 4).length ≤ 4 := by
  refine ⟨?_, rfl, List.length_take_le 4 _⟩
  cases opts with
  | none =>
    have hrw : decodeShapes (cardsShape texts none) count =
        (match mapTexts (texts.map (fun t => JsVal.jobj [(lit "text", JsVal.jstr t)])) with
         | .error _ => (.error () : Except Unit (JsVal × JsVal))
         | .ok texts2 => .ok (.jarr (texts2.take count), .jarr [])) := rfl
    rw [hrw, mapTexts_of_cards]
    rfl
  | some os =>
    have hrw : decodeShapes (cardsShape texts (some os)) count =
        (match mapTexts (texts.map (fun t => JsVal.jobj [(lit "text", JsVal.jstr t)])) with
         | .error _ => (.error () : Except Unit (JsVal × JsVal))
         | .ok texts2 => .ok (.jarr (texts2.take count), .jarr (os.take 4))) := rfl
    rw [hrw, mapTexts_of_cards]
    rfl

/-- C7 counterexample: the input `{"a":1} tail}` (valid JSON followed by
prose containing a stray closing brace) has `{"a":1}` as its first balanced
region — valid JSON — yet the sanitizer returns `null`, because its greedy
regex takes the span up to the *last* `}` of the input and that whole span
is brace-unbalanced.  So the code does not extract the first balanced
region. -/
theorem c7_stray_brace_defeats_extraction :
    sanitizeAndValidateJson (lit "\x7b\"a\":1\x7d tail\x7d") = none ∧
    specFirstBalanced (lit "\x7b\"a\":1\x7d tail\x7d") = some (lit "\x7b\"a\":1\x7d") ∧
    (jsonParse (lit "\x7b\"a\":1\x7d")).isSome = true := by
  refine ⟨by decide, by decide, by decide⟩

/-- C7 amended: the sanitizer takes the span from the *first `{`* of the
input to the *last `}`* of the input; consequently JSON surrounded by prose
is extracted correctly exactly when the prose before it contains no `{` and
the prose after it contains no `}` — in that case the span is the JSON
region itself, and (being balanced and valid) it is returned whole. -/
theorem c7_span_is_first_open_to_last_close (p j s : Str)
    (hp : ∀ c ∈ p, c ≠ '{') (hs : ∀ c ∈ s, c ≠ '}')
    (hj0 : j.head? = some '{') (hj1 : j.getLast? = some '}') :
    extractSpan (p ++ j ++ s) = some j ∧
    (jsBraceCount j = 0 → (jsonParse j).isSome = true →
      sanitizeAndValidateJson (p ++ j ++ s) = some j) := by
  have he := extractSpan_wrapped p j s hp hs hj0 hj1
  exact ⟨he, fun hb hj => (sanitize_eq_some_iff _ _).mpr ⟨he, hb, hj⟩⟩

/-- C7 amended witness: `note {"a":1} done` is extracted and accepted. -/
theorem c7_span_is_first_open_to_last_close_witness :
    extractSpan (lit "note " ++ lit "\x7b\"a\":1\x7d" ++ lit " done") =
      some (lit "\x7b\"a\":1\x7d") ∧
    sanitizeAndValidateJson (lit "note " ++ lit "\x7b\"a\":1\x7d" ++ lit " done") =
      some (lit "\x7b\"a\":1\x7d") := by
  have h := c7_span_is_first_open_to_last_close (lit "note ") (lit "\x7b\"a\":1\x7d")
    (lit " done") (by decide) (by decide) (by decide) (by decide)
  exact ⟨h.1, h.2 (by decide) (by decide)⟩

/-- C1 (code bug): two consecutive `POST /api/generate` requests for the
same topic `"X"` from the same viewer — page 0 then page 1, with the cache
threaded through — receive *identical* card lists (the second request is a
cache hit), so the snippet `"A"` is shown to the same viewer twice.  No
deduplication of any kind exists in the code, contradicting the claimed
per-viewer no-duplicates invariant. -/
theorem c1_repeated_requests_serve_identical_snippets :
    respCards (apiGenerateHandler (apiGenerateHandler [] envFirst (reqTopicX 0)).1
        envFirst (reqTopicX 1)).2.1 =
      respCards (apiGenerateHandler [] envFirst (reqTopicX 0)).2.1 ∧
    respCards (apiGenerateHandler [] envFirst (reqTopicX 0)).2.1 =
      [JsVal.jobj [(lit "content", JsVal.jstr (lit "A"))]] :=
  ⟨rfl, rfl⟩

/-- C2 counterexample: two identical concurrent requests that both pass
their cache lookup before either completes (schedule 0,1,0,1 on an empty
cache) each invoke the upstream provider: two calls, not the claimed exactly
one.  There is no single-flight machinery in the code. -/
theorem c2_concurrent_requests_make_two_upstream_calls :
    (runSched [specAI, specAI] [0, 1, 0, 1]
        { cache := [], calls := 0, ph := [.ready, .ready] }).calls = 2 ∧
    (runSched [specAI, specAI] [0, 1, 0, 1]
        { cache := [], calls := 0, ph := [.ready, .ready] }).calls ≠ 1 := by
  refine ⟨rfl, by decide⟩

/-- C2 amended: coalescing happens only sequentially — when the first
request completes (successfully storing a cache entry, which the sanitized
upstream-content path always does) before the second starts, the second is
served from the cache, so exactly one upstream call is made in total and
both callers receive the same result. -/
theorem c2_sequential_requests_coalesce (cache : CacheMap) (env : Env)
    (topic : Str) (count : Nat) (go : JsVal) (content span : Str)
    (hmiss : mapGet cache (mkKey topic count (resolveGenOpts go)) = none)
    (hkey : env.apiKeyPresent = true)
    (htrim : jsTrim topic ≠ [])
    (hfetch : env.fetchOutcome = .okContent (some content))
    (hsan : sanitizeAndValidateJson content = some span) :
    (generateLearningSnippets cache env topic count go).called = true ∧
    (generateLearningSnippets (generateLearningSnippets cache env topic count go).cache
        env topic count go).called = false ∧
    (generateLearningSnippets (generateLearningSnippets cache env topic count go).cache
        env topic count go).result =
      (generateLearningSnippets cache env topic count go).result := by
  have hne : topic.isEmpty = false := isEmpty_false_of_trim_ne topic htrim
  have htr2 : (jsTrim topic).isEmpty = false := by
    cases hj : jsTrim topic with
    | nil => exact absurd hj htrim
    | cons a l => rfl
  have hspanne : span.isEmpty = false := sanitize_some_nonempty content span hsan
  have hph1 : genPhase1 cache env.apiKeyPresent topic count go =
      .inr (PendingFetch.mk (mkKey topic count (resolveGenOpts go)) topic count
        (jsTruthy (resolveGenOpts go))) := by
    unfold genPhase1
    rw [hmiss, hkey]
    dsimp only
    rw [if_neg (by decide), hne, htr2, if_neg (by decide)]
  have hw : ∃ r : GenResult,
      genPhase2 cache (PendingFetch.mk (mkKey topic count (resolveGenOpts go)) topic
          count (jsTruthy (resolveGenOpts go))) env.fetchOutcome =
        (mapSet cache (mkKey topic count (resolveGenOpts go)) r, r) := by
    unfold genPhase2
    rw [hfetch]
    dsimp only
    rw [hsan]
    dsimp only
    rw [if_neg (by rw [hspanne]; decide)]
    exact ⟨_, rfl⟩
  obtain ⟨r, hr⟩ := hw
  have hg1 : generateLearningSnippets cache env topic count go =
      { cache := mapSet cache (mkKey topic count (resolveGenOpts go)) r,
        result := r, called := true } := by
    unfold generateLearningSnippets
    rw [hph1]
    dsimp only
    rw [hr]
  have hg2 : generateLearningSnippets
        (mapSet cache (mkKey topic count (resolveGenOpts go)) r) env topic count go =
      { cache := mapSet cache (mkKey topic count (resolveGenOpts go)) r,
        result := r, called := false } := by
    unfold generateLearningSnippets genPhase1
    rw [mapGet_mapSet_self]
  exact ⟨by rw [hg1], by rw [hg1, hg2], by rw [hg1, hg2]⟩

/-- C2 amended witness: the theorem applied at a concrete sequential pair. -/
theorem c2_sequential_requests_coalesce_witness :
    (generateLearningSnippets [] envFirst (lit "AI") 10 (JsVal.jbool true)).called
      = true :=
  (c2_sequential_requests_coalesce [] envFirst (lit "AI") 10 (.jbool true)
      goodCardsJson goodCardsJson rfl rfl (by decide) rfl rfl).1

/-- C3 counterexample: invalid input does *not* produce an error.  With an
API key present, `generateLearningSnippets` on the empty topic returns plain
fallback content (its own `"Topic is required"` throw is swallowed by the
catch-all at openai.ts:432) with no upstream call; and a whitespace-only
topic — empty after trim, hence invalid per the spec — sails through the
route's `!topic` check and yields a 200 response with fallback cards. -/
theorem c3_invalid_input_yields_fallback_not_error :
    (generateLearningSnippets [] envFirst (lit "") 5 .undefined).result =
      getFallbackContent (lit "") 5 false ∧
    (generateLearningSnippets [] envFirst (lit "") 5 .undefined).called = false ∧
    isOkResp (apiGenerateHandler [] envFirst
        (ApiReq.mk (.jstr (lit " ")) .undefined 0)).2.1 = true :=
  ⟨rfl, rfl, rfl⟩

/-- C3 amended: the route rejects a request (400) exactly when its `topic`
is missing, not a string, or the empty string — checked before any upstream
call — while `generateLearningSnippets` itself never surfaces an error:
for a topic that is empty after trimming (with the cache cold) it returns
fallback content with no upstream call, for any environment, any count, and
any options argument. -/
theorem c3_route_validates_function_never_errors :
    (∀ (cache : CacheMap) (env : Env) (req : ApiReq),
        (apiGenerateHandler cache env req).2.1 = ApiResp.badRequest ↔
          ¬ ∃ t : Str, req.topic = .jstr t ∧ t ≠ []) ∧
    (∀ (cache : CacheMap) (env : Env) (topic : Str) (count : Nat) (go : JsVal),
        jsTrim topic = [] →
        mapGet cache (mkKey topic count (resolveGenOpts go)) = none →
        (generateLearningSnippets cache env topic count go).result =
          getFallbackContent topic count (jsTruthy (resolveGenOpts go)) ∧
        (generateLearningSnippets cache env topic count go).called = false) := by
  constructor
  · intro cache env req
    unfold apiGenerateHandler
    cases req.topic
    case jstr t =>
      cases t with
      | nil =>
        constructor
        · rintro - ⟨t2, h2, hne⟩
          injection h2 with h2
          exact hne h2.symm
        · intro _
          rfl
      | cons c rest =>
        dsimp only
        rw [if_neg (by simp)]
        constructor
        · intro habs
          exfalso
          cases hsn : (generateLearningSnippets cache env (c :: rest) 10
              req.previousSnippet).result.snippets <;>
            rw [hsn] at habs <;> simp at habs
        · intro hno
          exact absurd ⟨c :: rest, rfl, by simp⟩ hno
    all_goals
      constructor
    all_goals
      first
      | (rintro - ⟨t2, h2, -⟩; simp at h2)
      | (intro _; rfl)
  · intro cache env topic count go htrim hmiss
    have htr2 : (jsTrim topic).isEmpty = true := by rw [htrim]; rfl
    cases hk : env.apiKeyPresent with
    | false =>
      have h1 : genPhase1 cache false topic count go =
          .inl (getFallbackContent topic count (jsTruthy (resolveGenOpts go))) := by
        unfold genPhase1
        rw [hmiss]
        rfl
      unfold generateLearningSnippets
      rw [hk, h1]
      exact ⟨rfl, rfl⟩
    | true =>
      have h1 : genPhase1 cache true topic count go =
          .inl (outerCatch topic count (jsTruthy (resolveGenOpts go))) := by
        unfold genPhase1
        rw [hmiss]
        dsimp only
        rw [if_neg (by decide), htr2, Bool.or_true, if_pos rfl]
      unfold generateLearningSnippets
      rw [hk, h1]
      exact ⟨outerCatch_eq_fallback topic count _, rfl⟩

/-- C3 amended witness: applied at a whitespace topic and at a bodyless
request. -/
theorem c3_route_validates_function_never_errors_witness :
    (generateLearningSnippets [] envNoKey (lit " ") 10 JsVal.undefined).result =
      getFallbackContent (lit " ") 10 false ∧
    (apiGenerateHandler [] envNoKey (ApiReq.mk JsVal.undefined JsVal.undefined 0)).2.1 =
      ApiResp.badRequest :=
  ⟨(c3_route_validates_function_never_errors.2 [] envNoKey (lit " ") 10 .undefined
      rfl rfl).1,
   (c3_route_validates_function_never_errors.1 [] envNoKey
      (ApiReq.mk .undefined .undefined 0)).mpr (by rintro ⟨t, ht, -⟩; simp at ht)⟩

/-- C8 counterexample: with generation unavailable, pages 0 and 1 for topic
`"X"` receive exactly the same ten fallback cards — the sets are equal, not
disjoint — because `getFallbackContent` receives no cursor at all. -/
theorem c8_fallback_pages_identical_not_disjoint :
    respCards (apiGenerateHandler [] envNoKey (reqTopicX 0)).2.1 =
      respCards (apiGenerateHandler [] envNoKey (reqTopicX 1)).2.1 ∧
    (respCards (apiGenerateHandler [] envNoKey (reqTopicX 0)).2.1).length = 10 :=
  ⟨rfl, rfl⟩

/-- C8 amended: the fallback output is independent of the cursor: the
fallback library takes no cursor argument and the route's only
page-dependent rewrite fires solely on strings matching
`/additional insights about .* - point \d+/i`, which genuine fallback
strings (for any topic whose templates escape that pattern) never do.
Hence two distinct pages yield identical — not disjoint — fallback cards. -/
theorem c8_fallback_ignores_cursor (env : Env) (topic : Str) (p q : Nat)
    (hk : env.apiKeyPresent = false)
    (hpat : ∀ s ∈ fallbackSnippetsList topic, testPat s = false) :
    respCards (apiGenerateHandler [] env (ApiReq.mk (.jstr topic) .undefined p)).2.1 =
    respCards (apiGenerateHandler [] env (ApiReq.mk (.jstr topic) .undefined q)).2.1 := by
  unfold apiGenerateHandler
  dsimp only
  by_cases ht : topic.isEmpty
  · rw [if_pos ht, if_pos ht]
  · rw [if_neg ht, if_neg ht]
    have hg : generateLearningSnippets [] env topic 10 JsVal.undefined =
        { cache := [], result := getFallbackContent topic 10 false,
          called := false } := by
      unfold generateLearningSnippets
      rw [genPhase1_empty_cache, hk]
      rfl
    rw [hg]
    show ((((fallbackSnippetsList topic).take 10).map JsVal.jstr).map (fun content =>
        if testPat (jsTemplate content) then JsVal.jstr (rewriteStr env.now p topic)
        else content)).map (fun content => JsVal.jobj [(lit "content", content)]) =
      ((((fallbackSnippetsList topic).take 10).map JsVal.jstr).map (fun content =>
        if testPat (jsTemplate content) then JsVal.jstr (rewriteStr env.now q topic)
        else content)).map (fun content => JsVal.jobj [(lit "content", content)])
    refine congrArg _ (List.map_congr_left ?_)
    intro x hx
    rcases List.mem_map.mp hx with ⟨s, hsmem, rfl⟩
    have hfp : testPat (jsTemplate (JsVal.jstr s)) = false :=
      hpat s (List.take_subset 10 _ hsmem)
    simp only [hfp, Bool.false_eq_true, if_false]

/-- C8 amended witness: topic `"X"`, pages 0 and 7. -/
theorem c8_fallback_ignores_cursor_witness :
    respCards (apiGenerateHandler [] envNoKey
        (ApiReq.mk (.jstr (lit "X")) .undefined 0)).2.1 =
    respCards (apiGenerateHandler [] envNoKey
        (ApiReq.mk (.jstr (lit "X")) .undefined 7)).2.1 :=
  c8_fallback_ignores_cursor envNoKey (lit "X") 0 7 rfl (by decide)

/-- C9 counterexample: a result generated at time 0 is still served from the
cache ten days later — far beyond any "about one hour" TTL — with no
upstream call, even though the upstream would by then return different
content (`"B"`).  The cache stores no expiry at all. -/
theorem c9_cache_hit_after_ttl_expiry :
    (generateLearningSnippets [] envFirst (lit "AI") 10 .undefined).called = true ∧
    (generateLearningSnippets
        (generateLearningSnippets [] envFirst (lit "AI") 10 .undefined).cache
        envTenDaysLater (lit "AI") 10 .undefined).called = false ∧
    (generateLearningSnippets
        (generateLearningSnippets [] envFirst (lit "AI") 10 .undefined).cache
        envTenDaysLater (lit "AI") 10 .undefined).result =
      (generateLearningSnippets [] envFirst (lit "AI") 10 .undefined).result ∧
    (generateLearningSnippets [] envFirst (lit "AI") 10 .undefined).result.snippets =
      .jarr [.jstr (lit "A")] :=
  ⟨rfl, rfl, rfl, rfl⟩

/-- C9 amended: cache entries never expire: whenever the key is present, the
lookup returns the stored entry unchanged with no upstream call, regardless
of the current time or of anything else in the environment. -/
theorem c9_cache_never_expires (cache : CacheMap) (env : Env) (topic : Str)
    (count : Nat) (go : JsVal) (r : GenResult)
    (h : mapGet cache (mkKey topic count (resolveGenOpts go)) = some r) :
    generateLearningSnippets cache env topic count go =
      { cache := cache, result := r, called := false } := by
  unfold generateLearningSnippets genPhase1
  rw [h]

/-- C9 amended witness: a concrete cache entry read ten days later. -/
theorem c9_cache_never_expires_witness :
    generateLearningSnippets
        [(mkKey (lit "X") 10 (JsVal.jbool false), getFallbackContent (lit "X") 10 false)]
        envTenDaysLater (lit "X") 10 JsVal.undefined =
      { cache := [(mkKey (lit "X") 10 (JsVal.jbool false),
          getFallbackContent (lit "X") 10 false)],
        result := getFallbackContent (lit "X") 10 false, called := false } :=
  c9_cache_never_expires _ envTenDaysLater (lit "X") 10 .undefined _ rfl

/-- C10 counterexample: `previousSnippet` *does* affect the generated
content.  The handler passes it into `generateLearningSnippets`'s third
parameter (the `generateOptions` boolean), where it is spliced into the
cache key `` `${topic}:${count}:${generateOptions}` ``; on a warm cache the
same topic therefore serves card `"A"` when `previousSnippet` is absent and
card `"B"` when it is `"prev"` — different card lists, both straight from
the cache with no upstream call.  So "the previousSnippet continuation
value has no effect on the generated content" is false as stated. -/
theorem c10_previous_snippet_selects_cache_entry :
    respCards (apiGenerateHandler warmCache envFirst
        (ApiReq.mk (.jstr (lit "X")) .undefined 0)).2.1 =
      [JsVal.jobj [(lit "content", JsVal.jstr (lit "A"))]] ∧
    respCards (apiGenerateHandler warmCache envFirst
        (ApiReq.mk (.jstr (lit "X")) (.jstr (lit "prev")) 0)).2.1 =
      [JsVal.jobj [(lit "content", JsVal.jstr (lit "B"))]] ∧
    (apiGenerateHandler warmCache envFirst
        (ApiReq.mk (.jstr (lit "X")) .undefined 0)).2.2 = false ∧
    (apiGenerateHandler warmCache envFirst
        (ApiReq.mk (.jstr (lit "X")) (.jstr (lit "prev")) 0)).2.2 = false ∧
    respCards (apiGenerateHandler warmCache envFirst
        (ApiReq.mk (.jstr (lit "X")) .undefined 0)).2.1 ≠
      respCards (apiGenerateHandler warmCache envFirst
        (ApiReq.mk (.jstr (lit "X")) (.jstr (lit "prev")) 0)).2.1 := by
  refine ⟨rfl, rfl, rfl, rfl, ?_⟩
  intro h
  have hl : [JsVal.jobj [(lit "content", JsVal.jstr (lit "A"))]] =
      [JsVal.jobj [(lit "content", JsVal.jstr (lit "B"))]] := h
  injection hl with hHead _
  injection hHead with hFields
  injection hFields with hPair _
  have hVal := congrArg Prod.snd hPair
  injection hVal with hStr
  injection hStr with hChar _
  exact absurd hChar (by decide)

/-- C10 amended: `nextPrevious` in every 200 response is the literal
`undefined` (the result type of `generateLearningSnippets` has no
`continuationToken` field), and `previousSnippet` never acts as a
continuation: the handler passes it as the function's third argument —
whose parameter is the `generateOptions` boolean — so with a cold cache any
two `previousSnippet` values produce identical card lists in identical
environments.  Its one observable effect on the cards is indirect: spliced
into the cache key, it can select a different stored batch on a warm cache
(the counterexample above). -/
theorem c10_continuation_is_dead :
    (∀ (cache : CacheMap) (env : Env) (req : ApiReq),
        nextPrevUndef (apiGenerateHandler cache env req).2.1) ∧
    (∀ (env : Env) (t : Str) (p : Nat) (ps1 ps2 : JsVal),
        respCards (apiGenerateHandler [] env (ApiReq.mk (.jstr t) ps1 p)).2.1 =
        respCards (apiGenerateHandler [] env (ApiReq.mk (.jstr t) ps2 p)).2.1) := by
  constructor
  · intro cache env req
    unfold apiGenerateHandler
    cases req.topic
    case jstr t =>
      dsimp only
      by_cases ht : t.isEmpty
      · rw [if_pos ht]
        exact trivial
      · rw [if_neg ht]
        cases (generateLearningSnippets cache env t 10 req.previousSnippet).result.snippets
        all_goals first | exact trivial | exact rfl
    all_goals exact trivial
  · intro env t p ps1 ps2
    unfold apiGenerateHandler
    dsimp only
    by_cases ht : t.isEmpty
    · rw [if_pos ht, if_pos ht]
    · rw [if_neg ht, if_neg ht]
      have hs := gen_snippets_indep env t 10 ps1 ps2
      rw [hs]
      cases (generateLearningSnippets [] env t 10 ps2).result.snippets <;> rfl

end TextSwipe
